import Mathlib

/-!
Verification development for the Saffa Team Scheduler repository.

The definitions below are a shallow embedding of the parts of the code the
claims are about: the row-level-security policies in their final state
(migration 20250629224259_fragrant_crystal.sql, together with the surviving
policies of the earlier migrations), the client-side handlers of the pages
(Settings, Tasks, Projects, LiveHost, Dashboard/ContentTracker), the lazy
profile creation of the auth context, and the foreign-key delete actions of
the schema (migrations 20250629210208_young_forest.sql and
20250629221605_hidden_paper.sql).
-/

namespace Saffa

/-- Principal identifier (a uuid in the store; modelled as a natural). -/
abbrev UserId := Nat

/-- Role of a profile: the `role` column of `user_profiles`, constrained by
`CHECK (role IN (admin, user))`. -/
inductive Role where
  | admin
  | user
deriving DecidableEq, Repr

/-- Row of the `user_profiles` table (columns used by the claims). -/
structure Profile where
  id : UserId
  nama : String
  role : Role
deriving DecidableEq, Repr

/-- Embedding of the policy subquery
`EXISTS (SELECT 1 FROM user_profiles WHERE id = auth.uid() AND role = admin)`. -/
def adminExists (profiles : List Profile) (uid : UserId) : Bool :=
  profiles.any fun p => p.id == uid && p.role == Role.admin

/-- Tables of the schema that carry row-level-security policies relevant to
the claims. -/
inductive Table where
  | projects
  | tasks
  | calendarNotes
  | contentLog
  | liveManualLog
  | templates
  | activityLog
deriving DecidableEq, Repr

/-- Generic row as seen by the policies: the nullable principal columns that
the policy expressions reference (`user_id`, `assigned_to` for tasks,
`uploaded_by` for templates). -/
structure Row where
  userId : Option UserId
  assignedTo : Option UserId
  uploadedBy : Option UserId
deriving DecidableEq, Repr

/-- USING clause of policy "Users can manage own projects" (final form,
migration fragrant_crystal): `auth.uid() = user_id OR EXISTS (admin)`. -/
def usingManageOwnProjects (profiles : List Profile) (uid : UserId) (r : Row) : Bool :=
  r.userId == some uid || adminExists profiles uid

/-- USING clause of policy "Users can manage own tasks" (final form):
`auth.uid() = user_id OR auth.uid() = assigned_to OR EXISTS (admin)`. -/
def usingManageOwnTasks (profiles : List Profile) (uid : UserId) (r : Row) : Bool :=
  r.userId == some uid || r.assignedTo == some uid || adminExists profiles uid

/-- USING clause of policy "Users can manage own calendar notes" (final form). -/
def usingManageOwnCalendarNotes (profiles : List Profile) (uid : UserId) (r : Row) : Bool :=
  r.userId == some uid || adminExists profiles uid

/-- USING clause of policy "Users can manage own content logs" (final form). -/
def usingManageOwnContentLogs (profiles : List Profile) (uid : UserId) (r : Row) : Bool :=
  r.userId == some uid || adminExists profiles uid

/-- USING clause of policy "Users can manage own live manual logs" (final form). -/
def usingManageOwnLiveManualLogs (profiles : List Profile) (uid : UserId) (r : Row) : Bool :=
  r.userId == some uid || adminExists profiles uid

/-- USING clause of policy "Users can read all templates": `USING (true)`. -/
def usingReadAllTemplates (_profiles : List Profile) (_uid : UserId) (_r : Row) : Bool :=
  true

/-- USING clause of policy "Users can manage own templates" (final form):
`auth.uid() = uploaded_by OR EXISTS (admin)`. -/
def usingManageOwnTemplates (profiles : List Profile) (uid : UserId) (r : Row) : Bool :=
  r.uploadedBy == some uid || adminExists profiles uid

/-- USING clause of policy "Users can read own activity logs" (final form):
`auth.uid() = user_id OR EXISTS (admin)`. -/
def usingReadOwnActivityLogs (profiles : List Profile) (uid : UserId) (r : Row) : Bool :=
  r.userId == some uid || adminExists profiles uid

/-- WITH CHECK clause of policy "Users can insert own activity logs":
`auth.uid() = user_id`, evaluated on the incoming row. -/
def checkInsertOwnActivityLogs (uid : UserId) (newRow : Row) : Bool :=
  newRow.userId == some uid

/-- Read permission for an authenticated principal: the OR of the permissive
policies applicable to SELECT on each table, in their final state. A NULL
principal column never satisfies an equality comparison, as in SQL. -/
def canRead (profiles : List Profile) (uid : UserId) (t : Table) (r : Row) : Bool :=
  match t with
  | .projects => usingManageOwnProjects profiles uid r
  | .tasks => usingManageOwnTasks profiles uid r
  | .calendarNotes => usingManageOwnCalendarNotes profiles uid r
  | .contentLog => usingManageOwnContentLogs profiles uid r
  | .liveManualLog => usingManageOwnLiveManualLogs profiles uid r
  | .templates => usingReadAllTemplates profiles uid r || usingManageOwnTemplates profiles uid r
  | .activityLog => usingReadOwnActivityLogs profiles uid r

/-- SQL operation kinds that row-level security distinguishes. -/
inductive SqlOp where
  | select
  | insert
  | update
  | delete
deriving DecidableEq, Repr

/-- Permission on the `activity_log` table per operation: the final policy
set contains exactly one SELECT policy and one INSERT policy for this table;
row-level security denies any operation not covered by a policy, so UPDATE
and DELETE are denied for every principal. For INSERT the row argument is
the incoming row; for SELECT it is the stored row. -/
def activityLogAllowed (profiles : List Profile) (uid : UserId) (op : SqlOp) (r : Row) : Bool :=
  match op with
  | .select => usingReadOwnActivityLogs profiles uid r
  | .insert => checkInsertOwnActivityLogs uid r
  | .update => false
  | .delete => false

/-- Outcome of the role-change handler in Settings.tsx: either an early
return with a toast error message, an early return because the confirm
dialog was declined, or an UPDATE issued to `user_profiles`. -/
inductive RoleChangeEffect where
  | rejectedMsg (msg : String)
  | cancelled
  | updateIssued (targetId : UserId) (newRole : Role)
deriving DecidableEq, Repr

/-- Embedding of `handleRoleChange(userId, newRole)` from Settings.tsx:
rejects unless the current profile role is admin; rejects when the target id
equals the current user id; asks for confirmation; otherwise issues the role
update for the target profile. -/
def handleRoleChange (profile : Option Profile) (currentUserId : Option UserId)
    (targetUserId : UserId) (newRole : Role) (confirmed : Bool) : RoleChangeEffect :=
  if profile.map Profile.role ≠ some Role.admin then
    .rejectedMsg "Hanya admin boleh mengubah peranan pengguna"
  else if some targetUserId = currentUserId then
    .rejectedMsg "Anda tidak boleh mengubah peranan anda sendiri"
  else if !confirmed then
    .cancelled
  else
    .updateIssued targetUserId newRole

/-- Effect of a role-change outcome on the profile store: only an issued
update changes the store, setting the role of the rows whose id matches. -/
def applyRoleChange (profiles : List Profile) (eff : RoleChangeEffect) : List Profile :=
  match eff with
  | .updateIssued targetId newRole =>
      profiles.map fun p => if p.id == targetId then { p with role := newRole } else p
  | _ => profiles

/-- Task status values (`Not Started`, `Ongoing`, `Completed`). -/
inductive Status where
  | notStarted
  | ongoing
  | completed
deriving DecidableEq, Repr

/-- Row of the `tasks` table (columns used by the client). -/
structure Task where
  id : Nat
  title : String
  projectId : Option Nat
  dueDate : Option String
  status : Status
  assignedTo : Option UserId
  progress : Nat
  userId : Option UserId
deriving DecidableEq, Repr

/-- Embedding of `const newStatus = newProgress === 100 ? Completed :
newProgress > 0 ? Ongoing : Not Started` from `updateProgress` in Tasks. -/
def newStatus (newProgress : Nat) : Status :=
  if newProgress = 100 then Status.completed
  else if newProgress > 0 then Status.ongoing
  else Status.notStarted

/-- Embedding of `updateProgress(taskId, newProgress)` from Tasks: updates
the matching row with the new progress and the recomputed status. -/
def updateProgress (tasks : List Task) (taskId : Nat) (newProgress : Nat) : List Task :=
  tasks.map fun t =>
    if t.id == taskId then
      { t with progress := newProgress, status := newStatus newProgress }
    else t

/-- Form state of the Tasks page modal (`formData`); an empty project id in
the form is coerced to null before the write (`formData.project_id || null`). -/
structure TaskFormData where
  title : String
  projectId : Option Nat
  dueDate : Option String
  status : Status
  progress : Nat
deriving DecidableEq, Repr

/-- Embedding of `handleSubmit` from Tasks: when editing, an UPDATE writes
the form fields verbatim onto the row with the edited id; otherwise an
INSERT appends a new row owned by the current user with the form fields. -/
def tasksHandleSubmit (tasks : List Task) (editingTask : Option Task) (uid : UserId)
    (form : TaskFormData) (newId : Nat) : List Task :=
  match editingTask with
  | some e =>
      tasks.map fun t =>
        if t.id == e.id then
          { t with
              title := form.title
              projectId := form.projectId
              dueDate := form.dueDate
              status := form.status
              progress := form.progress }
        else t
  | none =>
      tasks ++ [{ id := newId
                  title := form.title
                  projectId := form.projectId
                  dueDate := form.dueDate
                  status := form.status
                  assignedTo := none
                  progress := form.progress
                  userId := some uid }]

/-- Invariant of claim C5: progress 100 forces Completed, progress 0 forces
Not Started, any strictly intermediate progress forces Ongoing. -/
def statusProgressInvariant (t : Task) : Prop :=
  (t.progress = 100 → t.status = Status.completed) ∧
  (t.progress = 0 → t.status = Status.notStarted) ∧
  (0 < t.progress → t.progress < 100 → t.status = Status.ongoing)

instance (t : Task) : Decidable (statusProgressInvariant t) := by
  unfold statusProgressInvariant
  infer_instance

/-- Concrete task fixture used by witnesses: a fresh task at progress 0. -/
def designTaskStart : Task :=
  { id := 1, title := "Design", projectId := none, dueDate := none,
    status := Status.notStarted, assignedTo := none, progress := 0, userId := some 1 }

/-- Concrete task fixture used by witnesses: a task halfway done. -/
def designTaskMid : Task :=
  { id := 1, title := "Design", projectId := none, dueDate := none,
    status := Status.ongoing, assignedTo := none, progress := 50, userId := some 1 }

/-- Embedding of `user?.email?.split(at-sign)[0] || (Pengguna Baru)` used as
the display name of a lazily created profile in the auth context. -/
def lazyProfileName (email : Option String) : String :=
  match email with
  | some e =>
      match (e.splitOn "@").head? with
      | some s => if s = "" then "Pengguna Baru" else s
      | none => "Pengguna Baru"
  | none => "Pengguna Baru"

/-- Embedding of `fetchProfile(userId)` from the auth context: look up the
profile row by id; when absent, insert a new row with the derived name and
role user. Returns the resulting profile and the resulting store. -/
def fetchProfile (profiles : List Profile) (userId : UserId) (email : Option String) :
    Profile × List Profile :=
  match profiles.find? fun p => p.id == userId with
  | some p => (p, profiles)
  | none =>
      let newProfile : Profile := { id := userId, nama := lazyProfileName email, role := Role.user }
      (newProfile, profiles ++ [newProfile])

/-- Effective realtime subscription filter of useRealTimeSync: the hook
passes the channel config field `filter: filter || user_id=eq.<uid>`, so an
absent (or empty, both being falsy) page filter falls back to an
owner-equality filter on the requesting user id. -/
def realTimeSyncFilter (pageFilter : Option String) (uid : UserId) : String :=
  match pageFilter with
  | some s => if s = "" then "user_id=eq." ++ toString uid else s
  | none => "user_id=eq." ++ toString uid

/-- Filter argument the Projects page passes to useRealTimeSync: undefined
for admins, an owner-equality filter otherwise. -/
def projectsPageFilter (role : Option Role) (uid : UserId) : Option String :=
  if role = some Role.admin then none
  else some ("user_id=eq." ++ toString uid)

/-- Modelled from the spec: the change-event feed, an external collaborator
absent from this repository, exposes subscribe(table, filter) and delivers
an event for a changed row exactly when the row matches the subscription
filter; an owner-equality filter string matches the rows whose owner equals
the filtered id. -/
def eventDelivered (filterString : String) (rowOwner : Option UserId) : Bool :=
  match rowOwner with
  | some o => filterString == "user_id=eq." ++ toString o
  | none => false

/-- Row of the `projects` table (columns used by the claims). -/
structure ProjectRow where
  id : Nat
  name : String
  userId : Option UserId
deriving DecidableEq, Repr

/-- Row of the `calendar_notes` table. -/
structure NoteRow where
  id : Nat
  userId : Option UserId
  noteDate : Nat
  note : String
deriving DecidableEq, Repr

/-- Row of the `content_log` table. -/
structure ContentLogRow where
  id : Nat
  userId : Option UserId
  logDate : Nat
  contentCount : Int
deriving DecidableEq, Repr

/-- Row of the `live_manual_log` table; total_hours is a numeric column,
modelled as a rational. -/
structure LiveLogRow where
  id : Nat
  userId : Option UserId
  hostName : String
  liveDate : Nat
  totalHours : ℚ
deriving DecidableEq, Repr

/-- Row of the `templates` table (columns used by the claims). -/
structure TemplateRow where
  id : Nat
  title : String
  uploadedBy : Option UserId
deriving DecidableEq, Repr

/-- Store state over the tables involved in the profile-delete cascade. -/
structure Database where
  profiles : List Profile
  projects : List ProjectRow
  tasks : List Task
  calendarNotes : List NoteRow
  contentLogs : List ContentLogRow
  liveManualLogs : List LiveLogRow
  templates : List TemplateRow
deriving DecidableEq, Repr

/-- Delete of a `user_profiles` row together with the foreign-key actions
declared in the schema: the user_id references of projects, tasks,
calendar_notes, content_log and live_manual_log are ON DELETE CASCADE;
tasks are also removed transitively through tasks.project_id ON DELETE
CASCADE when their project is owned by the deleted profile, and their
assigned_to reference is ON DELETE SET NULL; templates.uploaded_by is
ON DELETE SET NULL, so template rows are kept. -/
def deleteProfile (db : Database) (uid : UserId) : Database :=
  { profiles := db.profiles.filter fun p => p.id ≠ uid
    projects := db.projects.filter fun r => r.userId ≠ some uid
    tasks :=
      (db.tasks.filter fun t =>
          ¬(t.userId = some uid ∨
            ∃ r ∈ db.projects, r.userId = some uid ∧ t.projectId = some r.id)).map
        fun t => if t.assignedTo = some uid then { t with assignedTo := none } else t
    calendarNotes := db.calendarNotes.filter fun n => n.userId ≠ some uid
    contentLogs := db.contentLogs.filter fun c => c.userId ≠ some uid
    liveManualLogs := db.liveManualLogs.filter fun l => l.userId ≠ some uid
    templates := db.templates.map fun tp =>
      if tp.uploadedBy = some uid then { tp with uploadedBy := none } else tp }

/-- Embedding of the JS String.prototype.trim used by the LiveHost handler:
drops whitespace from both ends of the string (written over the character
list so that concrete values reduce). -/
def jsTrim (s : String) : String :=
  String.mk (((s.data.dropWhile Char.isWhitespace).reverse.dropWhile
    Char.isWhitespace).reverse)

/-- Row inserted by the non-edit path of `handleSubmit` in LiveHost. -/
def insertedLiveRow (uid : UserId) (hostName : String) (liveDate : Nat)
    (totalHours : ℚ) (newId : Nat) : LiveLogRow :=
  { id := newId, userId := some uid, hostName := jsTrim hostName,
    liveDate := liveDate, totalHours := totalHours }

/-- Embedding of `handleSubmit` in LiveHost: an empty trimmed host name or
a non-positive hours value is rejected with a toast message; otherwise the
edited row is updated in place, or a new row owned by the current user is
inserted, with no duplicate-date check on either path. -/
def liveHostHandleSubmit (logs : List LiveLogRow) (editingLog : Option LiveLogRow)
    (uid : UserId) (hostName : String) (liveDate : Nat) (totalHours : ℚ)
    (newId : Nat) : Except String (List LiveLogRow) :=
  if jsTrim hostName = "" then
    .error "Nama host tidak boleh kosong"
  else if totalHours ≤ 0 then
    .error "Jumlah jam mestilah lebih dari 0"
  else
    match editingLog with
    | some e =>
        .ok (logs.map fun l =>
          if l.id == e.id then
            { l with hostName := jsTrim hostName, liveDate := liveDate,
                     totalHours := totalHours }
          else l)
    | none => .ok (logs ++ [insertedLiveRow uid hostName liveDate totalHours newId])

/-- Embedding of `logs.reduce((total, log) => total + log.total_hours, 0)`
shared by the aggregation helpers of LiveHost. -/
def totalHoursSum (logs : List LiveLogRow) : ℚ :=
  logs.foldl (fun total l => total + l.totalHours) 0

/-- Embedding of Math.round on the non-negative values occurring here:
rounding half toward positive infinity is the floor of x + 1/2. -/
def jsRound (x : ℚ) : Int := ⌊x + 1 / 2⌋

/-- Embedding of `getTotalHours` in LiveHost:
`Math.round(sum * 100) / 100`. -/
def getTotalHours (logs : List LiveLogRow) : ℚ :=
  (jsRound (totalHoursSum logs * 100) : ℚ) / 100

/-- Embedding of `getThisWeekHours` in LiveHost: the date one week before
now is passed as a cutoff day number; rows on or after it are summed and
the result rounded to two decimals. -/
def getThisWeekHours (logs : List LiveLogRow) (cutoff : Nat) : ℚ :=
  (jsRound (totalHoursSum (logs.filter fun l => cutoff ≤ l.liveDate) * 100) : ℚ) / 100

/-- Concrete live-log fixture used by the witnesses. -/
def ainaLog : LiveLogRow :=
  { id := 1, userId := some 1, hostName := "Aina", liveDate := 10, totalHours := 2 }

/-- Outcome of a ContentTracker submission: an early duplicate-date
rejection with a toast message, an UPDATE of the edited row, or an INSERT. -/
inductive ContentSubmitEffect where
  | duplicateRejected (msg : String)
  | updateIssued (logId : Nat) (contentCount : Int)
  | insertIssued (row : ContentLogRow)
deriving DecidableEq, Repr

/-- Embedding of `handleSubmit` in the ContentTracker section of Dashboard:
a non-edit submission whose date already occurs in the fetched list is
rejected before any insert; otherwise the edited row is updated or a new
row owned by the current user is inserted. -/
def contentHandleSubmit (logs : List ContentLogRow) (editingLog : Option ContentLogRow)
    (uid : UserId) (logDate : Nat) (contentCount : Int) (newId : Nat) :
    ContentSubmitEffect :=
  let existingLog := logs.find? fun l => l.logDate == logDate
  if existingLog.isSome && editingLog.isNone then
    .duplicateRejected "Log untuk tarikh ini sudah wujud. Sila edit log yang sedia ada."
  else
    match editingLog with
    | some e => .updateIssued e.id contentCount
    | none => .insertIssued { id := newId, userId := some uid,
                              logDate := logDate, contentCount := contentCount }

/-- Effect of a ContentTracker submission outcome on the stored list. -/
def applyContentSubmit (logs : List ContentLogRow) (eff : ContentSubmitEffect) :
    List ContentLogRow :=
  match eff with
  | .duplicateRejected _ => logs
  | .updateIssued logId c =>
      logs.map fun l => if l.id == logId then { l with contentCount := c } else l
  | .insertIssued r => logs ++ [r]

/-- Concrete content-log fixture used by the witnesses. -/
def dayTenContentLog : ContentLogRow :=
  { id := 1, userId := some 1, logDate := 10, contentCount := 5 }

end Saffa

namespace Saffa

/-- Claim C1: for every row R of an owned table and every principal P,
can_read(P, R) holds iff P is the row owner, P is the row assignee (tasks
only), or P has the admin role; for Template rows, can_read holds
unconditionally for every authenticated principal. -/
theorem canRead_characterization (profiles : List Profile) (uid : UserId)
    (t : Table) (r : Row) :
    (t ≠ Table.templates →
      (canRead profiles uid t r = true ↔
        (r.userId = some uid ∨ (t = Table.tasks ∧ r.assignedTo = some uid) ∨
          adminExists profiles uid = true))) ∧
    canRead profiles uid Table.templates r = true := by
  constructor
  · intro ht
    cases t with
    | templates => exact absurd rfl ht
    | projects =>
        simp [canRead, usingManageOwnProjects, Bool.or_eq_true, beq_iff_eq]
    | tasks =>
        simp [canRead, usingManageOwnTasks, Bool.or_eq_true, beq_iff_eq]
        tauto
    | calendarNotes =>
        simp [canRead, usingManageOwnCalendarNotes, Bool.or_eq_true, beq_iff_eq]
    | contentLog =>
        simp [canRead, usingManageOwnContentLogs, Bool.or_eq_true, beq_iff_eq]
    | liveManualLog =>
        simp [canRead, usingManageOwnLiveManualLogs, Bool.or_eq_true, beq_iff_eq]
    | activityLog =>
        simp [canRead, usingReadOwnActivityLogs, Bool.or_eq_true, beq_iff_eq]
  · simp [canRead, usingReadAllTemplates]

/-- Claim C9: on the `activity_log` table, insert is permitted iff the
inserted row owner equals the principal; read is permitted iff the principal
is the row owner or an admin; update and delete are permitted for no
principal. -/
theorem activityLog_append_only (profiles : List Profile) (uid : UserId) (r : Row) :
    (activityLogAllowed profiles uid SqlOp.insert r = true ↔ r.userId = some uid) ∧
    (activityLogAllowed profiles uid SqlOp.select r = true ↔
      (r.userId = some uid ∨ adminExists profiles uid = true)) ∧
    activityLogAllowed profiles uid SqlOp.update r = false ∧
    activityLogAllowed profiles uid SqlOp.delete r = false := by
  refine ⟨?_, ?_, rfl, rfl⟩
  · simp [activityLogAllowed, checkInsertOwnActivityLogs, beq_iff_eq]
  · simp [activityLogAllowed, usingReadOwnActivityLogs, Bool.or_eq_true, beq_iff_eq]

/-- Claim C2: a role-change request is rejected with an error message and
leaves the profile store unchanged whenever the requester is not an admin or
the target is the requester itself; a role update is issued only when the
requester is admin and the target is another principal. -/
theorem handleRoleChange_guard (profiles : List Profile) (profile : Option Profile)
    (currentUserId : Option UserId) (targetUserId : UserId) (newRole : Role)
    (confirmed : Bool) :
    ((profile.map Profile.role ≠ some Role.admin ∨ some targetUserId = currentUserId) →
      ((∃ msg, handleRoleChange profile currentUserId targetUserId newRole confirmed
          = RoleChangeEffect.rejectedMsg msg) ∧
        applyRoleChange profiles
          (handleRoleChange profile currentUserId targetUserId newRole confirmed)
          = profiles)) ∧
    (∀ t rl, handleRoleChange profile currentUserId targetUserId newRole confirmed
        = RoleChangeEffect.updateIssued t rl →
      profile.map Profile.role = some Role.admin ∧ some targetUserId ≠ currentUserId) := by
  constructor
  · intro hrej
    unfold handleRoleChange applyRoleChange
    split_ifs with h1 h2 h3
    · exact ⟨⟨_, rfl⟩, rfl⟩
    · exact ⟨⟨_, rfl⟩, rfl⟩
    · rcases hrej with h | h
      · exact absurd h h1
      · exact absurd h h2
    · rcases hrej with h | h
      · exact absurd h h1
      · exact absurd h h2
  · intro t rl hup
    unfold handleRoleChange at hup
    split_ifs at hup with h1 h2 h3
    exact ⟨not_ne_iff.mp h1, h2⟩

/-- Claim C4: for every task row matching the given id and every progress
value p at most 100, updateProgress writes progress p together with the
status determined by p: Not Started at 0, Ongoing strictly between 0 and
100, Completed at 100. -/
theorem updateProgress_writes_status (tasks : List Task) (taskId : Nat) (p : Nat)
    (t : Task) (hp : p ≤ 100) (ht : t ∈ tasks) (hid : t.id = taskId) :
    { t with progress := p, status := newStatus p } ∈ updateProgress tasks taskId p ∧
    newStatus p = (if p = 0 then Status.notStarted
                   else if p = 100 then Status.completed
                   else Status.ongoing) := by
  constructor
  · have hmem := List.mem_map_of_mem
      (fun s => if s.id == taskId then
        { s with progress := p, status := newStatus p } else s) ht
    simpa [updateProgress, hid] using hmem
  · unfold newStatus
    split_ifs <;> first | rfl | omega

/-- Witness for claim C4 at a concrete input: one task at progress 0 moved
to progress 100 becomes Completed. -/
theorem updateProgress_writes_status_witness :
    { designTaskStart with progress := 100, status := newStatus 100 }
      ∈ updateProgress [designTaskStart] 1 100 ∧
    newStatus 100 = (if (100 : Nat) = 0 then Status.notStarted
                     else if (100 : Nat) = 100 then Status.completed
                     else Status.ongoing) :=
  updateProgress_writes_status [designTaskStart] 1 100 designTaskStart
    (by decide) (by decide) (by decide)

/-- Counterexample for claim C5 as stated: the Tasks edit form submission
writes the form status and progress verbatim, so editing a task to progress
100 while the form status is Not Started stores a task violating the
invariant. -/
theorem tasksHandleSubmit_invariant_counterexample :
    ∃ t ∈ tasksHandleSubmit [designTaskMid] (some designTaskMid) 1
        { title := "Design", projectId := none, dueDate := none,
          status := Status.notStarted, progress := 100 }
        2,
      ¬ statusProgressInvariant t := by
  decide

/-- Claim C5 as amended: the invariant is preserved by the progress-button
update (updateProgress recomputes status from progress), while the edit form
submission writes form-supplied status and progress without enforcing it. -/
theorem updateProgress_preserves_invariant (tasks : List Task) (taskId : Nat) (p : Nat)
    (hp : p ≤ 100) (hinv : ∀ t ∈ tasks, statusProgressInvariant t) :
    ∀ t ∈ updateProgress tasks taskId p, statusProgressInvariant t := by
  intro t htmem
  rcases List.mem_map.mp htmem with ⟨s, hs, rfl⟩
  by_cases hid : (s.id == taskId) = true
  · rw [if_pos hid]
    unfold statusProgressInvariant
    dsimp only
    unfold newStatus
    split_ifs <;> refine ⟨?_, ?_, ?_⟩ <;> intros <;> first | rfl | omega
  · rw [if_neg hid]
    exact hinv s hs

/-- Witness for the amended claim C5 at a concrete input. -/
theorem updateProgress_preserves_invariant_witness :
    (100 : Nat) ≤ 100 ∧
    ∀ t ∈ updateProgress [designTaskMid] 1 100, statusProgressInvariant t :=
  ⟨by decide, updateProgress_preserves_invariant [designTaskMid] 1 100
    (by decide) (by decide)⟩

/-- Claim C10: the lazy profile-creation path of fetchProfile only ever
creates a profile with role user; every profile present after the call is
either pre-existing or has role user. -/
theorem fetchProfile_lazy_role_user (profiles : List Profile) (userId : UserId)
    (email : Option String) :
    (∀ p ∈ (fetchProfile profiles userId email).2, p ∈ profiles ∨ p.role = Role.user) ∧
    ((fetchProfile profiles userId email).2 = profiles ∨
      (fetchProfile profiles userId email).2
        = profiles ++ [{ id := userId, nama := lazyProfileName email, role := Role.user }]) := by
  rcases hf : profiles.find? (fun p => p.id == userId) with _ | q
  · constructor
    · intro p hp
      simp only [fetchProfile, hf] at hp
      rcases List.mem_append.mp hp with h | h
      · exact Or.inl h
      · right
        rw [List.mem_singleton.mp h]
    · right
      simp [fetchProfile, hf]
  · exact ⟨fun p hp => Or.inl (by simpa [fetchProfile, hf] using hp),
      Or.inl (by simp [fetchProfile, hf])⟩

/-- Claim C3 evaluated at the failing input: an admin with id 7 mounting
the Projects view passes no page filter, but the hook fallback reinstates
the owner filter, so the effective subscription filter is the admin own
owner-equality filter; a change to a project owned by principal 3 is then
not delivered to the admin subscription, while a change to a project owned
by the admin is. This contradicts the unfiltered admin feed the claim
states. -/
theorem adminRealtimeFilter_not_unfiltered :
    realTimeSyncFilter (projectsPageFilter (some Role.admin) 7) 7 = "user_id=eq.7" ∧
    eventDelivered (realTimeSyncFilter (projectsPageFilter (some Role.admin) 7) 7)
      (some 3) = false ∧
    eventDelivered (realTimeSyncFilter (projectsPageFilter (some Role.admin) 7) 7)
      (some 7) = true ∧
    realTimeSyncFilter (projectsPageFilter (some Role.user) 5) 5 = "user_id=eq.5" := by
  refine ⟨by decide, by decide, by decide, by decide⟩

/-- Claim C6: deleting a profile removes every project, task, calendar
note, content log and live-session log owned by that profile, while
templates uploaded by it are kept and have uploaded_by set to null. -/
theorem deleteProfile_cascade (db : Database) (uid : UserId) :
    (∀ r ∈ (deleteProfile db uid).projects, r.userId ≠ some uid) ∧
    (∀ t ∈ (deleteProfile db uid).tasks, t.userId ≠ some uid) ∧
    (∀ n ∈ (deleteProfile db uid).calendarNotes, n.userId ≠ some uid) ∧
    (∀ c ∈ (deleteProfile db uid).contentLogs, c.userId ≠ some uid) ∧
    (∀ l ∈ (deleteProfile db uid).liveManualLogs, l.userId ≠ some uid) ∧
    (deleteProfile db uid).templates.length = db.templates.length ∧
    (∀ tp ∈ db.templates, tp.uploadedBy = some uid →
      { tp with uploadedBy := none } ∈ (deleteProfile db uid).templates) := by
  refine ⟨?_, ?_, ?_, ?_, ?_, ?_, ?_⟩
  · intro r hr
    exact (List.mem_filter.mp hr).2 |> of_decide_eq_true
  · intro t ht
    rcases List.mem_map.mp ht with ⟨s, hsf, rfl⟩
    have hcond := of_decide_eq_true (List.mem_filter.mp hsf).2
    have hsu : s.userId ≠ some uid := fun h => hcond (Or.inl h)
    split_ifs <;> exact hsu
  · intro n hn
    exact (List.mem_filter.mp hn).2 |> of_decide_eq_true
  · intro c hc
    exact (List.mem_filter.mp hc).2 |> of_decide_eq_true
  · intro l hl
    exact (List.mem_filter.mp hl).2 |> of_decide_eq_true
  · simp [deleteProfile]
  · intro tp htp hup
    have := List.mem_map_of_mem
      (fun q => if q.uploadedBy = some uid then { q with uploadedBy := none } else q) htp
    simpa [deleteProfile, hup] using this

/-- Helper: folding the hours sum from an arbitrary initial accumulator. -/
theorem totalHoursSum_foldl_init (c : ℚ) (logs : List LiveLogRow) :
    logs.foldl (fun total l => total + l.totalHours) c
      = c + logs.foldl (fun total l => total + l.totalHours) 0 := by
  induction logs generalizing c with
  | nil => simp
  | cons hd tl ih =>
      simp only [List.foldl_cons]
      rw [ih (c + hd.totalHours), ih (0 + hd.totalHours)]
      ring

/-- Helper: the hours sum splits over list concatenation. -/
theorem totalHoursSum_append (xs ys : List LiveLogRow) :
    totalHoursSum (xs ++ ys) = totalHoursSum xs + totalHoursSum ys := by
  unfold totalHoursSum
  rw [List.foldl_append, totalHoursSum_foldl_init]

/-- Claim C7: a valid live-session submission for a date that already has a
row for the same user succeeds and appends a second row, so multiple rows
per (user, date) coexist; the total and this-week aggregations sum the
hours of every coexisting row, the new one included. -/
theorem liveLog_same_date_coexist (logs : List LiveLogRow) (uid : UserId)
    (e : LiveLogRow) (hostName : String) (d : Nat) (h : ℚ) (newId : Nat) (cutoff : Nat)
    (he : e ∈ logs) (hed : e.liveDate = d) (heu : e.userId = some uid)
    (hname : jsTrim hostName ≠ "") (hh : 0 < h) :
    liveHostHandleSubmit logs none uid hostName d h newId
      = Except.ok (logs ++ [insertedLiveRow uid hostName d h newId]) ∧
    2 ≤ ((logs ++ [insertedLiveRow uid hostName d h newId]).filter
          fun l => l.userId == some uid && l.liveDate == d).length ∧
    getTotalHours (logs ++ [insertedLiveRow uid hostName d h newId])
      = (jsRound ((totalHoursSum logs + h) * 100) : ℚ) / 100 ∧
    (cutoff ≤ d →
      getThisWeekHours (logs ++ [insertedLiveRow uid hostName d h newId]) cutoff
        = (jsRound ((totalHoursSum (logs.filter fun l => cutoff ≤ l.liveDate) + h) * 100)
            : ℚ) / 100) := by
  refine ⟨?_, ?_, ?_, ?_⟩
  · simp [liveHostHandleSubmit, hname, not_le.mpr hh]
  · rw [List.filter_append]
    have hemem : e ∈ logs.filter fun l => l.userId == some uid && l.liveDate == d :=
      List.mem_filter.mpr ⟨he, by simp [heu, hed]⟩
    have hpos : 0 < (logs.filter fun l => l.userId == some uid && l.liveDate == d).length :=
      List.length_pos.mpr (List.ne_nil_of_mem hemem)
    have h1 : ([insertedLiveRow uid hostName d h newId].filter
        fun l => l.userId == some uid && l.liveDate == d)
          = [insertedLiveRow uid hostName d h newId] := by
      simp [insertedLiveRow]
    rw [List.length_append, h1]
    simp only [List.length_cons, List.length_nil]
    omega
  · unfold getTotalHours
    rw [totalHoursSum_append]
    simp [totalHoursSum, insertedLiveRow]
  · intro hcut
    unfold getThisWeekHours
    rw [List.filter_append, totalHoursSum_append]
    have : ((([insertedLiveRow uid hostName d h newId]).filter
        fun l => decide (cutoff ≤ l.liveDate))) = [insertedLiveRow uid hostName d h newId] := by
      simp [insertedLiveRow, hcut]
    rw [this]
    simp [totalHoursSum, insertedLiveRow]

/-- Witness for claim C7 at a concrete input: a second entry on day 10 for
the same user succeeds alongside the existing one and both are summed. -/
theorem liveLog_same_date_coexist_witness :
    liveHostHandleSubmit [ainaLog] none 1 "Budi" 10 3 2
      = Except.ok ([ainaLog] ++ [insertedLiveRow 1 "Budi" 10 3 2]) ∧
    2 ≤ (([ainaLog] ++ [insertedLiveRow 1 "Budi" 10 3 2]).filter
          fun l => l.userId == some 1 && l.liveDate == 10).length ∧
    getTotalHours ([ainaLog] ++ [insertedLiveRow 1 "Budi" 10 3 2])
      = (jsRound ((totalHoursSum [ainaLog] + 3) * 100) : ℚ) / 100 ∧
    ((5 : Nat) ≤ 10 →
      getThisWeekHours ([ainaLog] ++ [insertedLiveRow 1 "Budi" 10 3 2]) 5
        = (jsRound ((totalHoursSum ([ainaLog].filter fun l => 5 ≤ l.liveDate) + 3) * 100)
            : ℚ) / 100) :=
  liveLog_same_date_coexist [ainaLog] 1 ainaLog "Budi" 10 3 2 5
    (by decide) (by decide) (by decide) (by decide) (by decide)

/-- Claim C8: a non-edit ContentTracker submission whose date already
occurs in the fetched list is rejected with an error message and no insert
is performed, leaving the stored log set unchanged. -/
theorem contentLog_duplicate_date_rejected (logs : List ContentLogRow) (uid : UserId)
    (d : Nat) (c : Int) (newId : Nat) (l : ContentLogRow)
    (hl : l ∈ logs) (hd : l.logDate = d) :
    (∃ msg, contentHandleSubmit logs none uid d c newId
        = ContentSubmitEffect.duplicateRejected msg) ∧
    applyContentSubmit logs (contentHandleSubmit logs none uid d c newId) = logs := by
  have hfind : (logs.find? fun x => x.logDate == d).isSome = true :=
    List.find?_isSome.mpr ⟨l, hl, by simp [hd]⟩
  constructor
  · exact ⟨"Log untuk tarikh ini sudah wujud. Sila edit log yang sedia ada.",
      by simp [contentHandleSubmit, hfind]⟩
  · simp [contentHandleSubmit, hfind, applyContentSubmit]

/-- Witness for claim C8 at a concrete input: a second submission for day
10 is rejected and the stored list is unchanged. -/
theorem contentLog_duplicate_date_rejected_witness :
    (∃ msg, contentHandleSubmit [dayTenContentLog] none 1 10 7 2
      = ContentSubmitEffect.duplicateRejected msg) ∧
    applyContentSubmit [dayTenContentLog]
      (contentHandleSubmit [dayTenContentLog] none 1 10 7 2)
      = [dayTenContentLog] :=
  contentLog_duplicate_date_rejected [dayTenContentLog] 1 10 7 2 dayTenContentLog
    (by decide) (by decide)

end Saffa
